import Mathlib

/-!
Verification development for the droid2api gateway
(`src/routes.js`, `src/transformers/request-common.js`).

The request and response bodies handled by the gateway are dynamic JSON
values, so the embedding is built over a small JSON value type `JVal`.
JavaScript-specific evaluation rules that the source relies on
(truthiness, strict equality with `true`, `||` defaulting, nullish
coalescing, property lookup on non-objects returning `undefined`) are
embedded as explicit helper functions, and `Option` is used where a
JavaScript expression can be `undefined` or `null`.

Functions from `config.js` and `auth.js` are not part of the source
tree given here; where a claim needs them they are modelled from the
specification and marked as such in their doc comments.  Everything
else is translated directly from the source files.
-/

/-- A parsed JSON value, as produced by `express.json()` or `response.json()`
in the source.  Numbers are restricted to integers, which covers every
numeric literal the translated code produces or inspects. -/
inductive JVal where
  | null : JVal
  | bool : Bool → JVal
  | num : Int → JVal
  | str : String → JVal
  | arr : List JVal → JVal
  | obj : List (String × JVal) → JVal
deriving Repr

namespace JVal

mutual

/-- Structural equality test for `JVal`, recursing through the nested
list positions. -/
def beqVal : JVal → JVal → Bool
  | .null, .null => true
  | .bool a, .bool b => a == b
  | .num a, .num b => a == b
  | .str a, .str b => a == b
  | .arr a, .arr b => beqValList a b
  | .obj a, .obj b => beqValFields a b
  | _, _ => false

def beqValList : List JVal → List JVal → Bool
  | [], [] => true
  | x :: xs, y :: ys => beqVal x y && beqValList xs ys
  | _, _ => false

def beqValFields : List (String × JVal) → List (String × JVal) → Bool
  | [], [] => true
  | (k₁, v₁) :: xs, (k₂, v₂) :: ys => k₁ == k₂ && beqVal v₁ v₂ && beqValFields xs ys
  | _, _ => false

end

mutual

theorem beqVal_iff_eq : ∀ a b : JVal, beqVal a b = true ↔ a = b
  | .null, .null => by simp [beqVal]
  | .bool _, .bool _ => by simp [beqVal]
  | .num _, .num _ => by simp [beqVal]
  | .str _, .str _ => by simp [beqVal]
  | .arr x, .arr y => by simp [beqVal, beqValList_iff_eq x y]
  | .obj x, .obj y => by simp [beqVal, beqValFields_iff_eq x y]
  | .null, .bool _ | .null, .num _ | .null, .str _ | .null, .arr _ | .null, .obj _
  | .bool _, .null | .bool _, .num _ | .bool _, .str _ | .bool _, .arr _ | .bool _, .obj _
  | .num _, .null | .num _, .bool _ | .num _, .str _ | .num _, .arr _ | .num _, .obj _
  | .str _, .null | .str _, .bool _ | .str _, .num _ | .str _, .arr _ | .str _, .obj _
  | .arr _, .null | .arr _, .bool _ | .arr _, .num _ | .arr _, .str _ | .arr _, .obj _
  | .obj _, .null | .obj _, .bool _ | .obj _, .num _ | .obj _, .str _ | .obj _, .arr _ => by
      simp [beqVal]

theorem beqValList_iff_eq : ∀ a b : List JVal, beqValList a b = true ↔ a = b
  | [], [] => by simp [beqValList]
  | [], _ :: _ => by simp [beqValList]
  | _ :: _, [] => by simp [beqValList]
  | x :: xs, y :: ys => by
      simp [beqValList, beqVal_iff_eq x y, beqValList_iff_eq xs ys]

theorem beqValFields_iff_eq :
    ∀ a b : List (String × JVal), beqValFields a b = true ↔ a = b
  | [], [] => by simp [beqValFields]
  | [], _ :: _ => by simp [beqValFields]
  | _ :: _, [] => by simp [beqValFields]
  | (k₁, v₁) :: xs, (k₂, v₂) :: ys => by
      simp [beqValFields, beqVal_iff_eq v₁ v₂, beqValFields_iff_eq xs ys,
        Prod.ext_iff, and_assoc]

end

instance : DecidableEq JVal := fun a b =>
  decidable_of_iff (beqVal a b = true) (beqVal_iff_eq a b)

end JVal

/-- JavaScript truthiness of a JSON value: `null`, `false`, `0` and the
empty string are falsy, every array and object is truthy. -/
def jsTruthy : JVal → Bool
  | .null => false
  | .bool b => b
  | .num n => n != 0
  | .str s => s != ""
  | .arr _ => true
  | .obj _ => true

/-- Truthiness of a possibly-`undefined` JSON value (`none` stands for
`undefined`). -/
def jsTruthyO : Option JVal → Bool
  | some v => jsTruthy v
  | none => false

/-- Truthiness of a possibly-absent string value (the empty string is
falsy). -/
def jsTruthyS : Option String → Bool
  | some s => s != ""
  | none => false

/-- JavaScript `a || b` over possibly-absent strings. -/
def jsOrStr (a b : Option String) : Option String :=
  if jsTruthyS a then a else b

/-- JavaScript property lookup `v[k]`: a field lookup on an object,
`undefined` (`none`) on every other value. -/
def jGet : JVal → String → Option JVal
  | .obj fs, k => fs.lookup k
  | _, _ => none

/-- Property lookup on a possibly-`undefined` value, as done by the
optional-chaining operator: `undefined` propagates. -/
def jGetO (v : Option JVal) (k : String) : Option JVal :=
  match v with
  | some w => jGet w k
  | none => none

mutual

/-- The string an element contributes to `Array.prototype.join`:
`null` and `undefined` become the empty string, other values are
converted with the standard `String(...)` rules (a nested array joins
its own elements with commas, an object prints as
`[object Object]`). -/
def jsJoinElemStr : JVal → String
  | .null => ""
  | .bool b => if b then "true" else "false"
  | .num n => toString n
  | .str s => s
  | .arr xs => String.intercalate "," (jsJoinElemStrList xs)
  | .obj _ => "[object Object]"

def jsJoinElemStrList : List JVal → List String
  | [] => []
  | x :: xs => jsJoinElemStr x :: jsJoinElemStrList xs

end

/-- JavaScript `s.replace(pat, repl)` with a plain-string-like pattern:
only the first occurrence is replaced. -/
def jsReplaceFirst (s pat repl : String) : String :=
  match s.splitOn pat with
  | [] => s
  | [_] => s
  | x :: rest => x ++ repl ++ String.intercalate pat rest

/-! ## Configuration registry

`config.js` is not part of the source tree given here; the accessors the
routes use are modelled from the specification (spec 3, DATA MODEL, and
spec 6, collaborator interfaces). -/

/-- A configured model entry (spec 3: Model). Only the fields the
translated routes inspect are kept. -/
structure ModelCfg where
  id : String
  type : String
  provider : String
deriving Repr, DecidableEq

/-- The loaded configuration, as the route handlers observe it through
the accessors below. -/
structure Config where
  models : List ModelCfg
  /-- redirect table from requested id to actual configured id -/
  redirects : List (String × String)
  /-- per-model reasoning level string, absent when unconfigured -/
  reasoning : List (String × String)
  /-- endpoint base url per endpoint type -/
  endpoints : List (String × String)
  systemPrompt : Option String
deriving Repr

/-- Modelled from the spec: `getRedirectedModelId` from the missing
`config.js`. Spec 3 describes "an optional redirect table mapping a
requested id to an actual configured id"; an absent or empty requested
id is falsy, which the handlers reject with `model is required`. -/
def getRedirectedModelId (cfg : Config) (m : Option String) : Option String :=
  match m with
  | none => none
  | some s => if s = "" then none else some ((cfg.redirects.lookup s).getD s)

/-- Modelled from the spec: `getModelById` from the missing `config.js`,
the registry lookup "looked up by id" of spec 3. -/
def getModelById (cfg : Config) (id : String) : Option ModelCfg :=
  cfg.models.find? (fun m => m.id = id)

/-- Modelled from the spec: `getEndpointByType` from the missing
`config.js`, "One Endpoint per type; selected by Model.type" (spec 3). -/
def getEndpointByType (cfg : Config) (t : String) : Option String :=
  cfg.endpoints.lookup t

/-- Modelled from the spec: `getModelReasoning` from the missing
`config.js`, the per-model `reasoningLevel` of spec 3. The source calls
it both with a model id string and with the (possibly absent) `model`
field of a request body. -/
def getModelReasoning (cfg : Config) (m : Option String) : Option String :=
  match m with
  | none => none
  | some id => cfg.reasoning.lookup id

/-- Modelled from the spec: `getSystemPrompt` from the missing
`config.js`, "a configured system prompt string, if present" (spec 4.2). -/
def getSystemPrompt (cfg : Config) : Option String :=
  cfg.systemPrompt

/-- Modelled from the spec: `getModelProvider` from the missing
`config.js` (spec 3: Model.provider). -/
def getModelProvider (cfg : Config) (id : String) : Option String :=
  (getModelById cfg id).map (fun m => m.provider)

/-! ## Request bodies

Each client-facing body is a JSON object; the fields the handlers read
or write are explicit, every other field is an opaque `extra`
association list that object spread preserves untouched. -/

/-- A chat message of the OpenAI chat-completions dialect. The content
may be any JSON value (string or structured parts). -/
structure ChatMsg where
  role : String
  content : JVal
deriving Repr, DecidableEq

/-- Body of a `/v1/chat/completions` request, which is also the shape
the common transformer works on. -/
structure CommonRequest where
  model : Option String
  messages : Option (List ChatMsg)
  reasoning_effort : Option JVal
  stream : Option JVal
  extra : List (String × JVal)
deriving Repr, DecidableEq

/-- Body of a `/v1/messages` (Anthropic-native) request. -/
structure MessagesRequest where
  model : Option String
  system : Option JVal
  thinking : Option JVal
  stream : Option JVal
  extra : List (String × JVal)
deriving Repr, DecidableEq

/-- Body of a `/v1/responses` (OpenAI-native) request. The
`instructions` field is a string in this dialect. -/
structure ResponsesRequest where
  model : Option String
  instructions : Option String
  reasoning : Option JVal
  stream : Option JVal
  extra : List (String × JVal)
deriving Repr, DecidableEq

/-! ## The common request transformer

Translated from `src/transformers/request-common.js`,
`transformToCommon`. -/

/-- The ternary `typeof msg.content === 'string' ? msg.content : ''`
of request-common.js line 25. -/
def contentIfString : JVal → String
  | JVal.str s => s
  | _ => ""

/-- The `map` over `messages` of `transformToCommon` lines 20-29:
the message at the first index whose role is `system` is rebuilt with
the configured prompt prepended to its content when that content is a
string (a non-string content contributes the empty string); every other
message is returned as is. -/
def replaceFirstSystemMsg (sp : String) : List ChatMsg → List ChatMsg
  | [] => []
  | m :: rest =>
    if m.role = "system" then
      { role := "system", content := JVal.str (sp ++ contentIfString m.content) } :: rest
    else m :: replaceFirstSystemMsg sp rest

/-- The system-prompt injection step of `transformToCommon`
(request-common.js lines 12-40): when a system prompt is configured
(truthy), prepend it to the first existing system message, or insert a
new leading system message when none exists. -/
def injectSystemPromptCommon (cfg : Config) (commonRequest : CommonRequest) : CommonRequest :=
  let systemPrompt := getSystemPrompt cfg
  if jsTruthyS systemPrompt then
    let sp := systemPrompt.getD ""
    let hasSystemMessage :=
      match commonRequest.messages with
      | some l => l.any (fun m => m.role = "system")
      | none => false
    if hasSystemMessage then
      { commonRequest with
          messages := (commonRequest.messages.getD []) |> replaceFirstSystemMsg sp |> some }
    else
      { commonRequest with
          messages := some ({ role := "system", content := JVal.str sp } ::
            commonRequest.messages.getD []) }
  else commonRequest

/-- `transformToCommon` (request-common.js lines 4-58): spread the
request, inject the configured system prompt into `messages`, then apply
the reasoning policy to `reasoning_effort`. -/
def transformToCommon (cfg : Config) (openaiRequest : CommonRequest) : CommonRequest :=
  let commonRequest := injectSystemPromptCommon cfg openaiRequest
  let reasoningLevel := getModelReasoning cfg openaiRequest.model
  if reasoningLevel = some "auto" then
    commonRequest
  else if reasoningLevel = some "low" ∨ reasoningLevel = some "medium" ∨
      reasoningLevel = some "high" then
    { commonRequest with reasoning_effort := some (JVal.str (reasoningLevel.getD "")) }
  else
    { commonRequest with reasoning_effort := none }

/-! ## Direct-forwarding body transformations

Translated from `src/routes.js`: `handleDirectMessages` lines 443-480
and `handleDirectResponses` lines 297-323.  Each builds the modified
outbound body from the inbound one; the surrounding routing and fetch
logic is modelled separately below. -/

/-- The system block the messages handler prepends:
an object with type `text` and the prompt text. -/
def mkTextBlock (t : String) : JVal :=
  JVal.obj [("type", JVal.str "text"), ("text", JVal.str t)]

/-- The fixed `budget_tokens` table of `handleDirectMessages`
(routes.js lines 467-471). -/
def budgetTokens (level : String) : Int :=
  if level = "low" then 4096
  else if level = "medium" then 12288
  else 24576

/-- The system-prompt injection step of `handleDirectMessages`
(routes.js lines 443-459): when a system prompt is configured (truthy),
prepend a new system block when the existing `system` field is a truthy
array, otherwise replace it by a fresh one-block array. -/
def injectSystemPromptMessages (cfg : Config) (modifiedRequest : MessagesRequest) :
    MessagesRequest :=
  let systemPrompt := getSystemPrompt cfg
  if jsTruthyS systemPrompt then
    let sp := systemPrompt.getD ""
    match modifiedRequest.system with
    | some (JVal.arr l) =>
      { modifiedRequest with system := some (JVal.arr (mkTextBlock sp :: l)) }
    | _ =>
      { modifiedRequest with system := some (JVal.arr [mkTextBlock sp]) }
  else modifiedRequest

/-- Outbound body built by `handleDirectMessages` (routes.js lines
443-480): spread with the redirected model id, inject the configured
system prompt, then apply the thinking policy. -/
def messagesOutbound (cfg : Config) (modelId : String)
    (anthropicRequest : MessagesRequest) : MessagesRequest :=
  let modifiedRequest :=
    injectSystemPromptMessages cfg { anthropicRequest with model := some modelId }
  let reasoningLevel := getModelReasoning cfg (some modelId)
  if reasoningLevel = some "auto" then
    modifiedRequest
  else if reasoningLevel = some "low" ∨ reasoningLevel = some "medium" ∨
      reasoningLevel = some "high" then
    { modifiedRequest with
        thinking := some (JVal.obj
          [("type", JVal.str "enabled"),
           ("budget_tokens", JVal.num (budgetTokens (reasoningLevel.getD "")))]) }
  else
    { modifiedRequest with thinking := none }

/-- The system-prompt injection step of `handleDirectResponses`
(routes.js lines 297-308): when a system prompt is configured (truthy),
prepend it to a truthy `instructions` string, else set `instructions`
to the prompt alone. -/
def injectSystemPromptResponses (cfg : Config) (modifiedRequest : ResponsesRequest) :
    ResponsesRequest :=
  let systemPrompt := getSystemPrompt cfg
  if jsTruthyS systemPrompt then
    let sp := systemPrompt.getD ""
    if jsTruthyS modifiedRequest.instructions then
      { modifiedRequest with
          instructions := some (sp ++ modifiedRequest.instructions.getD "") }
    else
      { modifiedRequest with instructions := some sp }
  else modifiedRequest

/-- Outbound body built by `handleDirectResponses` (routes.js lines
297-323): spread with the redirected model id, inject the configured
system prompt into `instructions`, then apply the reasoning policy. -/
def responsesOutbound (cfg : Config) (modelId : String)
    (openaiRequest : ResponsesRequest) : ResponsesRequest :=
  let modifiedRequest :=
    injectSystemPromptResponses cfg { openaiRequest with model := some modelId }
  let reasoningLevel := getModelReasoning cfg (some modelId)
  if reasoningLevel = some "auto" then
    modifiedRequest
  else if reasoningLevel = some "low" ∨ reasoningLevel = some "medium" ∨
      reasoningLevel = some "high" then
    { modifiedRequest with
        reasoning := some (JVal.obj
          [("effort", JVal.str (reasoningLevel.getD "")),
           ("summary", JVal.str "auto")]) }
  else
    { modifiedRequest with reasoning := none }

/-! ## Non-streaming response adapter

Translated from `src/routes.js`, `convertResponseToChatCompletion`
(lines 19-51).  The function receives whatever JSON value
`response.json()` produced, so it is embedded over `JVal`; `none` as a
result stands for the JavaScript function throwing (the initial type
guard, or a method call on a value that does not support it), which the
caller recovers from. -/

/-- The guard `!resp || typeof resp !== 'object'`: only objects and
arrays survive (`typeof null` is object but `!null` is true, and arrays
are objects in this sense). -/
def jsIsObjectLike : JVal → Bool
  | .arr _ => true
  | .obj _ => true
  | _ => false

/-- JavaScript `a || b` where `a` may be `undefined`. -/
def jsOrJ (a : Option JVal) (b : JVal) : JVal :=
  if jsTruthyO a then a.getD JVal.null else b

/-- JavaScript `a ?? b` where `a` may be `undefined`: only `null` and
`undefined` are replaced. -/
def jsNullish (a : Option JVal) (b : JVal) : JVal :=
  match a with
  | some JVal.null => b
  | some v => v
  | none => b

/-- `resp.id.replace` with the pattern matching `resp_` only at the
start of the string, replaced by `chatcmpl-`. -/
def respIdToChatId (s : String) : String :=
  if s.startsWith "resp_" then "chatcmpl-" ++ s.drop 5 else s

/-- `(resp.output || []).find(o => o.type === 'message')`: scanning
stops at the first item whose `type` field is the string `message`;
reading `type` off a `null` item throws (`none`).  The outer `Option`
is the throw, the inner one is `find` possibly returning nothing. -/
def findMessageItem : List JVal → Option (Option JVal)
  | [] => some none
  | o :: rest =>
    if o = JVal.null then none
    else if jGet o "type" = some (JVal.str "message") then some (some o)
    else findMessageItem rest

/-- `content.filter(c => c.type === 'output_text')`: keeps the items
whose `type` field is the string `output_text`; reading `type` off a
`null` item throws (`none`). -/
def filterTextBlocks : List JVal → Option (List JVal)
  | [] => some []
  | c :: rest =>
    if c = JVal.null then none
    else
      match filterTextBlocks rest with
      | none => none
      | some r =>
        if jGet c "type" = some (JVal.str "output_text") then some (c :: r)
        else some r

/-- The canonical completion object built by
`convertResponseToChatCompletion`.  The constant parts (`object`,
the single choice with index 0) are added back by `encodeChatCompletion`;
loosely-typed slots keep whatever JSON value the source copied. -/
structure ChatCompletionJ where
  id : String
  created : JVal
  model : JVal
  role : JVal
  content : String
  finish_reason : String
  prompt_tokens : JVal
  completion_tokens : JVal
  total_tokens : JVal
deriving Repr, DecidableEq

/-- The contribution of one filtered block to the joined content:
`textBlocks.map(c => c.text)` followed by the element conversion of
`join('')` (a missing or `null` text becomes the empty string). -/
def textOfBlock (c : JVal) : String :=
  match jGet c "text" with
  | none => ""
  | some v => jsJoinElemStr v

/-- `convertResponseToChatCompletion` (routes.js lines 19-51) over an
arbitrary parsed JSON body; `none` is the JavaScript function
throwing. `now` is `Date.now()` in milliseconds. -/
def tryConvertResponse (now : Nat) (resp : JVal) : Option ChatCompletionJ := do
  if !(jsIsObjectLike resp) then none
  else
    let outputList ←
      match jGet resp "output" with
      | some v =>
        if jsTruthy v then
          match v with
          | JVal.arr l => some l
          | _ => none
        else some []
      | none => some []
    let outputMsg ← findMessageItem outputList
    let textBlocks ←
      match jGetO outputMsg "content" with
      | none => some []
      | some JVal.null => some []
      | some (JVal.arr l) => filterTextBlocks l
      | some _ => none
    let content := String.join (textBlocks.map textOfBlock)
    let idStr ←
      match jGet resp "id" with
      | some (JVal.str s) =>
        if s ≠ "" then some (respIdToChatId s)
        else some ("chatcmpl-" ++ toString now)
      | some v =>
        if jsTruthy v then none else some ("chatcmpl-" ++ toString now)
      | none => some ("chatcmpl-" ++ toString now)
    pure {
      id := idStr,
      created := jsOrJ (jGet resp "created_at") (JVal.num (now / 1000)),
      model := jsOrJ (jGet resp "model") (JVal.str "unknown-model"),
      role := jsOrJ (jGetO outputMsg "role") (JVal.str "assistant"),
      -- `content || ''` is the identity on a string that is already
      -- defaulted to `''` by the join
      content := content,
      finish_reason :=
        if jGet resp "status" = some (JVal.str "completed") then "stop" else "unknown",
      prompt_tokens := jsNullish (jGetO (jGet resp "usage") "input_tokens") (JVal.num 0),
      completion_tokens := jsNullish (jGetO (jGet resp "usage") "output_tokens") (JVal.num 0),
      total_tokens := jsNullish (jGetO (jGet resp "usage") "total_tokens") (JVal.num 0) }

/-- The JSON object `res.json(converted)` serialises: the
`chatCompletion` literal of routes.js lines 28-48. -/
def encodeChatCompletion (c : ChatCompletionJ) : JVal :=
  JVal.obj
    [("id", JVal.str c.id),
     ("object", JVal.str "chat.completion"),
     ("created", c.created),
     ("model", c.model),
     ("choices", JVal.arr
       [JVal.obj
         [("index", JVal.num 0),
          ("message", JVal.obj [("role", c.role), ("content", JVal.str c.content)]),
          ("finish_reason", JVal.str c.finish_reason)]]),
     ("usage", JVal.obj
       [("prompt_tokens", c.prompt_tokens),
        ("completion_tokens", c.completion_tokens),
        ("total_tokens", c.total_tokens)])]

/-! ## Route handlers

Translated from `src/routes.js`.  Each HTTP handler is split into a
routing phase (everything before the outbound `fetch`; its result is a
`reject` carrying an HTTP error, or a `forward` carrying the outbound
call, so reaching the upstream is visible structurally) and a respond
phase (what the handler does with the upstream response).  `getApiKey`
lives in the missing `auth.js` and is passed in as a function; `none`
as its result stands for it throwing. -/

/-- The inbound request headers the handlers read for credential
resolution (express lower-cases header names). -/
structure ReqHeaders where
  authorization : Option String
  xApiKey : Option String
deriving Repr, DecidableEq

/-- The client credential argument `/v1/chat/completions` passes to
`getApiKey` (routes.js line 108): the `authorization` header only. -/
def clientAuthChat (h : ReqHeaders) : Option String :=
  h.authorization

/-- The client credential argument the direct-forwarding handlers pass
to `getApiKey` (routes.js lines 277-280, 422-425, 575-578):
`req.headers.authorization || (req.headers['x-api-key'] ? 'Bearer ' +
key : null)`. -/
def clientAuthDirect (h : ReqHeaders) : Option String :=
  let clientAuthFromXApiKey :=
    if jsTruthyS h.xApiKey then some ("Bearer " ++ h.xApiKey.getD "") else none
  jsOrStr h.authorization clientAuthFromXApiKey

/-- `res.status(s).json(obj with one error field)`. -/
def mkErrSimple (e : String) : JVal :=
  JVal.obj [("error", JVal.str e)]

/-- `res.status(s).json(obj with error and message fields)`. -/
def mkErrMsg (e m : String) : JVal :=
  JVal.obj [("error", JVal.str e), ("message", JVal.str m)]

/-- The upstream-error relay body of every handler:
an object with the fixed `Endpoint returned` text and the upstream body
text under `details`. -/
def mkErrDetails (status : Nat) (errorText : String) : JVal :=
  JVal.obj
    [("error", JVal.str ("Endpoint returned " ++ toString status)),
     ("details", JVal.str errorText)]

/-- What a handler writes back to the client. `raw` is a body relayed
as exact bytes; no handler in the source produces it, it exists to
state claims about verbatim relaying. -/
inductive ClientBody where
  | json (v : JVal)
  | raw (s : String)
  | streamed
deriving Repr, DecidableEq

/-- An HTTP response to the client. -/
structure ClientResp where
  status : Nat
  body : ClientBody
deriving Repr, DecidableEq

/-- The upstream HTTP response as `node-fetch` exposes it. `text` and
`json` are the two views the handlers take of the same body bytes
(`response.text()` on the error path, `response.json()` otherwise). -/
structure UpstreamResp where
  status : Nat
  text : String
  json : JVal
deriving Repr, DecidableEq

/-- `response.ok` of the fetch API: status in the 200-299 range. -/
def respOk (u : UpstreamResp) : Bool :=
  200 ≤ u.status && u.status ≤ 299

/-- Routing-phase result of `/v1/chat/completions`. The anthropic and
openai forward constructors carry the `stream` field of the transformed
request; `transformToAnthropic` and `transformToOpenAI` live in source
files not available here, and per the spec (4.2, 8: transforms touch
only model id, system prompt and reasoning fields) they leave `stream`
as the client sent it, which is what is recorded. -/
inductive ChatRoute where
  | reject (status : Nat) (body : JVal)
  | forwardAnthropic (url : String) (authHeader : String) (stream : Option JVal)
  | forwardOpenAI (url : String) (authHeader : String) (stream : Option JVal)
  | forwardCommon (url : String) (authHeader : String) (body : CommonRequest)
deriving Repr, DecidableEq

/-- Routing phase of `handleChatCompletions` (routes.js lines 82-162):
model redirect, registry lookup, endpoint lookup, credential
resolution, then transformation, ending at the outbound fetch. -/
def handleChatCompletionsRoute (cfg : Config)
    (getApiKey : Option String → Option String)
    (h : ReqHeaders) (openaiRequest : CommonRequest) : ChatRoute :=
  match getRedirectedModelId cfg openaiRequest.model with
  | none => .reject 400 (mkErrSimple "model is required")
  | some modelId =>
    match getModelById cfg modelId with
    | none => .reject 404 (mkErrSimple ("Model " ++ modelId ++ " not found"))
    | some model =>
      match getEndpointByType cfg model.type with
      | none =>
        .reject 500 (mkErrSimple ("Endpoint type " ++ model.type ++ " not found"))
      | some baseUrl =>
        match getApiKey (clientAuthChat h) with
        | none =>
          .reject 500 (mkErrMsg "API key not available"
            "Failed to get or refresh API key. Please check server logs.")
        | some authHeader =>
          let requestWithRedirectedModel := { openaiRequest with model := some modelId }
          if model.type = "anthropic" then
            .forwardAnthropic baseUrl authHeader requestWithRedirectedModel.stream
          else if model.type = "openai" then
            .forwardOpenAI baseUrl authHeader requestWithRedirectedModel.stream
          else if model.type = "common" then
            .forwardCommon baseUrl authHeader
              (transformToCommon cfg requestWithRedirectedModel)
          else
            .reject 500 (mkErrSimple ("Unknown endpoint type: " ++ model.type))

/-- Respond phase of `handleChatCompletions` (routes.js lines 164-231):
relay non-2xx upstream responses as an error object, stream when the
transformed request asked to stream (line 175), otherwise parse the
body and, for openai-type models, adapt it, falling back to the
original data when the adapter throws. -/
def handleChatCompletionsRespond (modelType : String) (streamField : Option JVal)
    (now : Nat) (u : UpstreamResp) : ClientResp :=
  if !(respOk u) then
    { status := u.status, body := .json (mkErrDetails u.status u.text) }
  else if streamField = some (JVal.bool true) then
    { status := 200, body := .streamed }
  else if modelType = "openai" then
    match tryConvertResponse now u.json with
    | some converted => { status := 200, body := .json (encodeChatCompletion converted) }
    | none => { status := 200, body := .json u.json }
  else
    { status := 200, body := .json u.json }

/-- The composed `/v1/chat/completions` handler: routing phase, then,
when the upstream was reached, the respond phase on the upstream
response. -/
def handleChatCompletions (cfg : Config)
    (getApiKey : Option String → Option String) (h : ReqHeaders)
    (openaiRequest : CommonRequest) (now : Nat) (u : UpstreamResp) : ClientResp :=
  match handleChatCompletionsRoute cfg getApiKey h openaiRequest with
  | .reject s b => { status := s, body := .json b }
  | .forwardAnthropic _ _ sf => handleChatCompletionsRespond "anthropic" sf now u
  | .forwardOpenAI _ _ sf => handleChatCompletionsRespond "openai" sf now u
  | .forwardCommon _ _ body => handleChatCompletionsRespond "common" body.stream now u

/-- Routing-phase result of a direct-forwarding handler: a rejection,
or the outbound call with its url, resolved credential and body. -/
inductive DirectRoute (α : Type) where
  | reject (status : Nat) (body : JVal)
  | forward (url : String) (authHeader : String) (body : α)
deriving Repr, DecidableEq

/-- Routing phase of `handleDirectResponses` (routes.js lines 243-339):
model redirect, registry lookup, openai-only type check, endpoint
lookup, credential resolution (with the x-api-key fallback), body
building, ending at the outbound fetch. -/
def handleDirectResponsesRoute (cfg : Config)
    (getApiKey : Option String → Option String)
    (h : ReqHeaders) (openaiRequest : ResponsesRequest) : DirectRoute ResponsesRequest :=
  match getRedirectedModelId cfg openaiRequest.model with
  | none => .reject 400 (mkErrSimple "model is required")
  | some modelId =>
    match getModelById cfg modelId with
    | none => .reject 404 (mkErrSimple ("Model " ++ modelId ++ " not found"))
    | some model =>
      if model.type ≠ "openai" then
        .reject 400 (mkErrMsg "Invalid endpoint type"
          ("/v1/responses endpoint only supports openai type endpoints, current model "
            ++ modelId ++ " is " ++ model.type ++ " type"))
      else
        match getEndpointByType cfg model.type with
        | none =>
          .reject 500 (mkErrSimple ("Endpoint type " ++ model.type ++ " not found"))
        | some baseUrl =>
          match getApiKey (clientAuthDirect h) with
          | none =>
            .reject 500 (mkErrMsg "API key not available"
              "Failed to get or refresh API key. Please check server logs.")
          | some authHeader =>
            .forward baseUrl authHeader (responsesOutbound cfg modelId openaiRequest)

/-- Respond phase shared verbatim by `handleDirectResponses`
(routes.js lines 341-376) and `handleDirectMessages` (lines 498-531):
relay non-2xx as an error object, forward the stream untouched when the
client request asked to stream, otherwise parse and forward the JSON
body. -/
def directForwardRespond (isStreaming : Bool) (u : UpstreamResp) : ClientResp :=
  if !(respOk u) then
    { status := u.status, body := .json (mkErrDetails u.status u.text) }
  else if isStreaming then
    { status := 200, body := .streamed }
  else
    { status := 200, body := .json u.json }

/-- The composed `/v1/responses` handler. The streaming test is
`openaiRequest.stream === true` on the original request (line 352). -/
def handleDirectResponses (cfg : Config)
    (getApiKey : Option String → Option String) (h : ReqHeaders)
    (openaiRequest : ResponsesRequest) (u : UpstreamResp) : ClientResp :=
  match handleDirectResponsesRoute cfg getApiKey h openaiRequest with
  | .reject s b => { status := s, body := .json b }
  | .forward _ _ _ =>
    directForwardRespond (openaiRequest.stream = some (JVal.bool true)) u

/-- Routing phase of `handleDirectMessages` (routes.js lines 388-496):
model redirect, registry lookup, anthropic-only type check, endpoint
lookup, credential resolution (with the x-api-key fallback), body
building, ending at the outbound fetch. -/
def handleDirectMessagesRoute (cfg : Config)
    (getApiKey : Option String → Option String)
    (h : ReqHeaders) (anthropicRequest : MessagesRequest) : DirectRoute MessagesRequest :=
  match getRedirectedModelId cfg anthropicRequest.model with
  | none => .reject 400 (mkErrSimple "model is required")
  | some modelId =>
    match getModelById cfg modelId with
    | none => .reject 404 (mkErrSimple ("Model " ++ modelId ++ " not found"))
    | some model =>
      if model.type ≠ "anthropic" then
        .reject 400 (mkErrMsg "Invalid endpoint type"
          ("/v1/messages endpoint only supports anthropic type endpoints, current model "
            ++ modelId ++ " is " ++ model.type ++ " type"))
      else
        match getEndpointByType cfg model.type with
        | none =>
          .reject 500 (mkErrSimple ("Endpoint type " ++ model.type ++ " not found"))
        | some baseUrl =>
          match getApiKey (clientAuthDirect h) with
          | none =>
            .reject 500 (mkErrMsg "API key not available"
              "Failed to get or refresh API key. Please check server logs.")
          | some authHeader =>
            .forward baseUrl authHeader (messagesOutbound cfg modelId anthropicRequest)

/-- The composed `/v1/messages` handler. The streaming test is
`anthropicRequest.stream === true` on the original request (line 440). -/
def handleDirectMessages (cfg : Config)
    (getApiKey : Option String → Option String) (h : ReqHeaders)
    (anthropicRequest : MessagesRequest) (u : UpstreamResp) : ClientResp :=
  match handleDirectMessagesRoute cfg getApiKey h anthropicRequest with
  | .reject s b => { status := s, body := .json b }
  | .forward _ _ _ =>
    directForwardRespond (anthropicRequest.stream = some (JVal.bool true)) u

/-- Routing phase of `handleCountTokens` (routes.js lines 543-614):
model redirect, registry lookup, anthropic-only type check, endpoint
lookup, credential resolution (with the x-api-key fallback), the
count_tokens url rewrite and the model-substituted body, ending at the
outbound fetch. -/
def handleCountTokensRoute (cfg : Config)
    (getApiKey : Option String → Option String)
    (h : ReqHeaders) (anthropicRequest : MessagesRequest) : DirectRoute MessagesRequest :=
  match getRedirectedModelId cfg anthropicRequest.model with
  | none => .reject 400 (mkErrSimple "model is required")
  | some modelId =>
    match getModelById cfg modelId with
    | none => .reject 404 (mkErrSimple ("Model " ++ modelId ++ " not found"))
    | some model =>
      if model.type ≠ "anthropic" then
        .reject 400 (mkErrMsg "Invalid endpoint type"
          ("/v1/messages/count_tokens endpoint only supports anthropic type endpoints, current model "
            ++ modelId ++ " is " ++ model.type ++ " type"))
      else
        match getEndpointByType cfg "anthropic" with
        | none => .reject 500 (mkErrSimple "Endpoint type anthropic not found")
        | some baseUrl =>
          match getApiKey (clientAuthDirect h) with
          | none =>
            .reject 500 (mkErrMsg "API key not available"
              "Failed to get or refresh API key. Please check server logs.")
          | some authHeader =>
            .forward (jsReplaceFirst baseUrl "/v1/messages" "/v1/messages/count_tokens")
              authHeader { anthropicRequest with model := some modelId }

/-- Respond phase of `handleCountTokens` (routes.js lines 616-629):
relay non-2xx as an error object, otherwise parse and forward the JSON
body; this handler has no streaming branch at all. -/
def countTokensRespond (u : UpstreamResp) : ClientResp :=
  if !(respOk u) then
    { status := u.status, body := .json (mkErrDetails u.status u.text) }
  else
    { status := 200, body := .json u.json }

/-- The composed `/v1/messages/count_tokens` handler. -/
def handleCountTokens (cfg : Config)
    (getApiKey : Option String → Option String) (h : ReqHeaders)
    (anthropicRequest : MessagesRequest) (u : UpstreamResp) : ClientResp :=
  match handleCountTokensRoute cfg getApiKey h anthropicRequest with
  | .reject s b => { status := s, body := .json b }
  | .forward _ _ _ => countTokensRespond u

/-! ## Well-formed upstream response bodies

The adapter claim quantifies over well-formed non-streaming upstream
bodies.  These are the bodies of the expected shape: optional fields
are `Option`, and `encodeRespBody` embeds such a body into the JSON
values `tryConvertResponse` consumes (an absent field is genuinely
absent from the encoded object). -/

/-- A content part of an output item (`type` tag and optional text). -/
structure ContentPart where
  type : String
  text : Option String
deriving Repr, DecidableEq

/-- An item of the `output` array. -/
structure OutputItem where
  type : String
  role : Option String
  content : Option (List ContentPart)
deriving Repr, DecidableEq

/-- The `usage` object with its three optional counters. -/
structure RespUsage where
  input_tokens : Option Int
  output_tokens : Option Int
  total_tokens : Option Int
deriving Repr, DecidableEq

/-- A well-formed `/v1/responses` non-streaming body. -/
structure RespBody where
  id : Option String
  created_at : Option Int
  model : Option String
  status : Option String
  output : Option (List OutputItem)
  usage : Option RespUsage
deriving Repr, DecidableEq

/-- One optional object field: absent when the value is absent. -/
def optField (k : String) (v : Option JVal) : List (String × JVal) :=
  match v with
  | some w => [(k, w)]
  | none => []

def encodeContentPart (c : ContentPart) : JVal :=
  JVal.obj ([("type", JVal.str c.type)] ++ optField "text" (c.text.map JVal.str))

def encodeOutputItem (o : OutputItem) : JVal :=
  JVal.obj ([("type", JVal.str o.type)]
    ++ optField "role" (o.role.map JVal.str)
    ++ optField "content" (o.content.map (fun l => JVal.arr (l.map encodeContentPart))))

def encodeRespUsage (u : RespUsage) : JVal :=
  JVal.obj (optField "input_tokens" (u.input_tokens.map JVal.num)
    ++ optField "output_tokens" (u.output_tokens.map JVal.num)
    ++ optField "total_tokens" (u.total_tokens.map JVal.num))

def encodeRespBody (r : RespBody) : JVal :=
  JVal.obj (optField "id" (r.id.map JVal.str)
    ++ optField "created_at" (r.created_at.map JVal.num)
    ++ optField "model" (r.model.map JVal.str)
    ++ optField "status" (r.status.map JVal.str)
    ++ optField "output" (r.output.map (fun l => JVal.arr (l.map encodeOutputItem)))
    ++ optField "usage" (r.usage.map encodeRespUsage))

/-! The expected canonical completion, written from the words of the
claim (first message-typed output item, its text-typed content parts
concatenated in order, finish reason from the completion status, id
derived from the upstream id when present else time-based, usage
counters defaulted to zero), with the JavaScript truthiness edges of
the source made explicit. -/

/-- The first output item whose type is `message`. -/
def firstMessageItem (r : RespBody) : Option OutputItem :=
  (r.output.getD []).find? (fun o => o.type = "message")

/-- The texts of the `output_text`-typed content parts of the first
message item, in order. -/
def messageTexts (r : RespBody) : List String :=
  match firstMessageItem r with
  | none => []
  | some m =>
    ((m.content.getD []).filter (fun c => c.type = "output_text")).map
      (fun c => c.text.getD "")

/-- A present nonempty string value, else the default (the JavaScript
`value || default` over an optional string field). -/
def orDefaultStr (x : Option String) (d : String) : JVal :=
  match x with
  | some s => if s ≠ "" then JVal.str s else JVal.str d
  | none => JVal.str d

/-- A present nonzero number value, else the default. -/
def orDefaultNum (x : Option Int) (d : Int) : JVal :=
  match x with
  | some n => if n ≠ 0 then JVal.num n else JVal.num d
  | none => JVal.num d

/-- The synthetic id: derived deterministically from a present nonempty
upstream id (`now` does not occur in that branch), else time-based. -/
def syntheticId (rid : Option String) (now : Nat) : String :=
  match rid with
  | some s => if s ≠ "" then respIdToChatId s else "chatcmpl-" ++ toString now
  | none => "chatcmpl-" ++ toString now

/-- The completion the claim describes for a well-formed body. -/
def expectedChatCompletion (now : Nat) (r : RespBody) : ChatCompletionJ where
  id := syntheticId r.id now
  created := orDefaultNum r.created_at ((now : Int) / 1000)
  model := orDefaultStr r.model "unknown-model"
  role := orDefaultStr ((firstMessageItem r).bind (fun m => m.role)) "assistant"
  content := String.join (messageTexts r)
  finish_reason := if r.status = some "completed" then "stop" else "unknown"
  prompt_tokens := JVal.num (((r.usage.bind (fun u => u.input_tokens)).getD 0))
  completion_tokens := JVal.num (((r.usage.bind (fun u => u.output_tokens)).getD 0))
  total_tokens := JVal.num (((r.usage.bind (fun u => u.total_tokens)).getD 0))

/-! ## Frame lemmas for the system-prompt injections -/

theorem injectSystemPromptCommon_frame (cfg : Config) (r : CommonRequest) :
    (injectSystemPromptCommon cfg r).model = r.model ∧
    (injectSystemPromptCommon cfg r).reasoning_effort = r.reasoning_effort ∧
    (injectSystemPromptCommon cfg r).stream = r.stream ∧
    (injectSystemPromptCommon cfg r).extra = r.extra := by
  refine ⟨?_, ?_, ?_, ?_⟩ <;> unfold injectSystemPromptCommon <;> dsimp only <;>
    (repeat' split) <;> rfl

theorem injectSystemPromptMessages_frame (cfg : Config) (r : MessagesRequest) :
    (injectSystemPromptMessages cfg r).model = r.model ∧
    (injectSystemPromptMessages cfg r).thinking = r.thinking ∧
    (injectSystemPromptMessages cfg r).stream = r.stream ∧
    (injectSystemPromptMessages cfg r).extra = r.extra := by
  refine ⟨?_, ?_, ?_, ?_⟩ <;> unfold injectSystemPromptMessages <;> dsimp only <;>
    (repeat' split) <;> rfl

theorem injectSystemPromptResponses_frame (cfg : Config) (r : ResponsesRequest) :
    (injectSystemPromptResponses cfg r).model = r.model ∧
    (injectSystemPromptResponses cfg r).reasoning = r.reasoning ∧
    (injectSystemPromptResponses cfg r).stream = r.stream ∧
    (injectSystemPromptResponses cfg r).extra = r.extra := by
  refine ⟨?_, ?_, ?_, ?_⟩ <;> unfold injectSystemPromptResponses <;> dsimp only <;>
    (repeat' split) <;> rfl

/-- The four reasoning levels the handlers act on; everything else
(including an unconfigured level) falls to the delete branch. -/
def reasoningActive (l : Option String) : Prop :=
  l = some "auto" ∨ l = some "low" ∨ l = some "medium" ∨ l = some "high"

instance : DecidablePred reasoningActive := fun l => by
  unfold reasoningActive; infer_instance

/-! ## Claims about the reasoning-level policy -/

/-- C1: for every request against a model whose configured reasoning
level is `off` or any level outside auto/low/medium/high, the
transformed outbound body carries no reasoning field: the common
transformer deletes `reasoning_effort`, the `/v1/messages` handler
deletes `thinking`, and the `/v1/responses` handler deletes
`reasoning`, even when the client request contained one. -/
theorem reasoningOff_removes_fields
    (cfg : Config) (modelId : String)
    (reqC : CommonRequest) (reqM : MessagesRequest) (reqR : ResponsesRequest)
    (hC : ¬ reasoningActive (getModelReasoning cfg reqC.model))
    (hM : ¬ reasoningActive (getModelReasoning cfg (some modelId))) :
    (transformToCommon cfg reqC).reasoning_effort = none ∧
    (messagesOutbound cfg modelId reqM).thinking = none ∧
    (responsesOutbound cfg modelId reqR).reasoning = none := by
  unfold reasoningActive at hC hM
  push_neg at hC hM
  obtain ⟨hC1, hC2, hC3, hC4⟩ := hC
  obtain ⟨hM1, hM2, hM3, hM4⟩ := hM
  refine ⟨?_, ?_, ?_⟩ <;>
    simp [transformToCommon, messagesOutbound, responsesOutbound,
      hC1, hC2, hC3, hC4, hM1, hM2, hM3, hM4]

/-- A configuration used to instantiate the hypothesised theorems:
model `m-off` has level `off`, `m-high` has level `high`,
`m-auto` has level `auto`, and a system prompt is configured. -/
def sampleCfg : Config where
  models := [⟨"m-off", "common", "prov"⟩, ⟨"m-high", "common", "prov"⟩,
    ⟨"m-auto", "anthropic", "prov"⟩]
  redirects := []
  reasoning := [("m-off", "off"), ("m-high", "high"), ("m-auto", "auto")]
  endpoints := [("common", "https://upstream.example/v1/chat"),
    ("anthropic", "https://upstream.example/v1/messages")]
  systemPrompt := some "PROMPT "

/-- A chat request that carries every reasoning-related field a client
could send. -/
def sampleCommonReq (m : String) : CommonRequest where
  model := some m
  messages := some [{ role := "user", content := JVal.str "hi" }]
  reasoning_effort := some (JVal.str "minimal")
  stream := some (JVal.bool false)
  extra := [("temperature", JVal.num 1)]

def sampleMessagesReq : MessagesRequest where
  model := some "m-off"
  system := some (JVal.arr [mkTextBlock "client block"])
  thinking := some (JVal.obj [("type", JVal.str "enabled"), ("budget_tokens", JVal.num 99)])
  stream := some (JVal.bool false)
  extra := [("max_tokens", JVal.num 5)]

def sampleResponsesReq : ResponsesRequest where
  model := some "m-off"
  instructions := some "client instructions"
  reasoning := some (JVal.obj [("effort", JVal.str "minimal")])
  stream := some (JVal.bool false)
  extra := [("max_output_tokens", JVal.num 5)]

theorem reasoningOff_removes_fields_witness :
    (¬ reasoningActive (getModelReasoning sampleCfg (sampleCommonReq "m-off").model)) ∧
    (transformToCommon sampleCfg (sampleCommonReq "m-off")).reasoning_effort = none ∧
    (messagesOutbound sampleCfg "m-off" sampleMessagesReq).thinking = none ∧
    (responsesOutbound sampleCfg "m-off" sampleResponsesReq).reasoning = none :=
  ⟨by decide,
    reasoningOff_removes_fields sampleCfg "m-off" (sampleCommonReq "m-off")
      sampleMessagesReq sampleResponsesReq (by decide) (by decide)⟩

/-- C2: for every request against a model whose configured reasoning
level is low, medium or high, the outbound reasoning field is
force-overwritten regardless of any client-supplied value, with the
fixed mapping: Anthropic thinking is enabled with budget 4096, 12288 or
24576; OpenAI reasoning is the effort level with summary auto; the
common `reasoning_effort` is the level itself. -/
theorem reasoningLevel_forced
    (cfg : Config) (modelId : String)
    (reqC : CommonRequest) (reqM : MessagesRequest) (reqR : ResponsesRequest)
    (l : String) (hl : l = "low" ∨ l = "medium" ∨ l = "high")
    (hC : getModelReasoning cfg reqC.model = some l)
    (hM : getModelReasoning cfg (some modelId) = some l) :
    (transformToCommon cfg reqC).reasoning_effort = some (JVal.str l) ∧
    (messagesOutbound cfg modelId reqM).thinking =
      some (JVal.obj [("type", JVal.str "enabled"),
        ("budget_tokens", JVal.num (budgetTokens l))]) ∧
    (responsesOutbound cfg modelId reqR).reasoning =
      some (JVal.obj [("effort", JVal.str l), ("summary", JVal.str "auto")]) ∧
    budgetTokens "low" = 4096 ∧ budgetTokens "medium" = 12288 ∧
    budgetTokens "high" = 24576 := by
  rcases hl with rfl | rfl | rfl <;>
    exact ⟨by simp [transformToCommon, hC],
      by simp [messagesOutbound, hM],
      by simp [responsesOutbound, hM],
      by decide, by decide, by decide⟩

theorem reasoningLevel_forced_witness :
    getModelReasoning sampleCfg (sampleCommonReq "m-high").model = some "high" ∧
    (transformToCommon sampleCfg (sampleCommonReq "m-high")).reasoning_effort =
      some (JVal.str "high") ∧
    (messagesOutbound sampleCfg "m-high" sampleMessagesReq).thinking =
      some (JVal.obj [("type", JVal.str "enabled"),
        ("budget_tokens", JVal.num (budgetTokens "high"))]) ∧
    (responsesOutbound sampleCfg "m-high" sampleResponsesReq).reasoning =
      some (JVal.obj [("effort", JVal.str "high"), ("summary", JVal.str "auto")]) :=
  ⟨by decide,
    (reasoningLevel_forced sampleCfg "m-high" (sampleCommonReq "m-high")
      sampleMessagesReq sampleResponsesReq "high" (by simp) (by decide) (by decide)).1,
    (reasoningLevel_forced sampleCfg "m-high" (sampleCommonReq "m-high")
      sampleMessagesReq sampleResponsesReq "high" (by simp) (by decide) (by decide)).2.1,
    (reasoningLevel_forced sampleCfg "m-high" (sampleCommonReq "m-high")
      sampleMessagesReq sampleResponsesReq "high" (by simp) (by decide) (by decide)).2.2.1⟩

/-- C3: for every request against a model whose configured reasoning
level is auto, the transformed outbound body is identical to the client
request except for model-id substitution and system-prompt injection:
each transform equals the pure system-prompt injection of the
model-substituted request, so the `reasoning_effort`, `thinking` and
`reasoning` fields (and every other field but `model` and the injected
system/messages/instructions field) are passed through exactly as the
client sent them. -/
theorem reasoningAuto_passthrough
    (cfg : Config) (modelId : String)
    (reqC : CommonRequest) (reqM : MessagesRequest) (reqR : ResponsesRequest)
    (hM : getModelReasoning cfg (some modelId) = some "auto") :
    transformToCommon cfg { reqC with model := some modelId } =
      injectSystemPromptCommon cfg { reqC with model := some modelId } ∧
    messagesOutbound cfg modelId reqM =
      injectSystemPromptMessages cfg { reqM with model := some modelId } ∧
    responsesOutbound cfg modelId reqR =
      injectSystemPromptResponses cfg { reqR with model := some modelId } ∧
    (transformToCommon cfg { reqC with model := some modelId }).reasoning_effort =
      reqC.reasoning_effort ∧
    (messagesOutbound cfg modelId reqM).thinking = reqM.thinking ∧
    (responsesOutbound cfg modelId reqR).reasoning = reqR.reasoning ∧
    (transformToCommon cfg { reqC with model := some modelId }).stream = reqC.stream ∧
    (messagesOutbound cfg modelId reqM).stream = reqM.stream ∧
    (responsesOutbound cfg modelId reqR).stream = reqR.stream ∧
    (transformToCommon cfg { reqC with model := some modelId }).extra = reqC.extra ∧
    (messagesOutbound cfg modelId reqM).extra = reqM.extra ∧
    (responsesOutbound cfg modelId reqR).extra = reqR.extra ∧
    (transformToCommon cfg { reqC with model := some modelId }).model = some modelId ∧
    (messagesOutbound cfg modelId reqM).model = some modelId ∧
    (responsesOutbound cfg modelId reqR).model = some modelId := by
  have eC : transformToCommon cfg { reqC with model := some modelId } =
      injectSystemPromptCommon cfg { reqC with model := some modelId } := by
    simp [transformToCommon, hM]
  have eM : messagesOutbound cfg modelId reqM =
      injectSystemPromptMessages cfg { reqM with model := some modelId } := by
    simp [messagesOutbound, hM]
  have eR : responsesOutbound cfg modelId reqR =
      injectSystemPromptResponses cfg { reqR with model := some modelId } := by
    simp [responsesOutbound, hM]
  obtain ⟨fCm, fCr, fCs, fCe⟩ :=
    injectSystemPromptCommon_frame cfg { reqC with model := some modelId }
  obtain ⟨fMm, fMt, fMs, fMe⟩ :=
    injectSystemPromptMessages_frame cfg { reqM with model := some modelId }
  obtain ⟨fRm, fRr, fRs, fRe⟩ :=
    injectSystemPromptResponses_frame cfg { reqR with model := some modelId }
  refine ⟨eC, eM, eR, ?_, ?_, ?_, ?_, ?_, ?_, ?_, ?_, ?_, ?_, ?_, ?_⟩ <;>
    simp [eC, eM, eR, fCm, fCr, fCs, fCe, fMm, fMt, fMs, fMe, fRm, fRr, fRs, fRe]

theorem reasoningAuto_passthrough_witness :
    getModelReasoning sampleCfg (some "m-auto") = some "auto" ∧
    (transformToCommon sampleCfg { sampleCommonReq "x" with model := some "m-auto" }).reasoning_effort =
      (sampleCommonReq "x").reasoning_effort ∧
    (messagesOutbound sampleCfg "m-auto" sampleMessagesReq).thinking =
      sampleMessagesReq.thinking ∧
    (responsesOutbound sampleCfg "m-auto" sampleResponsesReq).reasoning =
      sampleResponsesReq.reasoning :=
  ⟨by decide,
    (reasoningAuto_passthrough sampleCfg "m-auto" (sampleCommonReq "x")
      sampleMessagesReq sampleResponsesReq (by decide)).2.2.2.1,
    (reasoningAuto_passthrough sampleCfg "m-auto" (sampleCommonReq "x")
      sampleMessagesReq sampleResponsesReq (by decide)).2.2.2.2.1,
    (reasoningAuto_passthrough sampleCfg "m-auto" (sampleCommonReq "x")
      sampleMessagesReq sampleResponsesReq (by decide)).2.2.2.2.2.1⟩

/-! ## Claims about system-prompt injection -/

mutual

/-- Whether some string leaf of a JSON value equals `needle`; used to
state that client-supplied content survives (or does not survive) a
transformation. -/
def jvalMentionsStr (needle : String) : JVal → Bool
  | .str s => s == needle
  | .arr xs => jvalMentionsStrList needle xs
  | .obj fs => jvalMentionsStrFields needle fs
  | _ => false

def jvalMentionsStrList (needle : String) : List JVal → Bool
  | [] => false
  | x :: xs => jvalMentionsStr needle x || jvalMentionsStrList needle xs

def jvalMentionsStrFields (needle : String) : List (String × JVal) → Bool
  | [] => false
  | (_, v) :: xs => jvalMentionsStr needle v || jvalMentionsStrFields needle xs

end

/-- Shape of `replaceFirstSystemMsg` on a list whose first system
message is exhibited: everything before and after is unchanged, and the
system message is rebuilt with the prompt prepended to its content when
that content is a string and with the prompt alone otherwise. -/
theorem replaceFirstSystemMsg_eq (sp : String) (l1 : List ChatMsg) (m : ChatMsg)
    (l2 : List ChatMsg) (h1 : ∀ m' ∈ l1, m'.role ≠ "system")
    (hm : m.role = "system") :
    replaceFirstSystemMsg sp (l1 ++ m :: l2) =
      l1 ++ ChatMsg.mk "system" (JVal.str (sp ++ contentIfString m.content)) :: l2 := by
  induction l1 with
  | nil => simp [replaceFirstSystemMsg, hm]
  | cons a t ih =>
    have ha : a.role ≠ "system" := h1 a (by simp)
    simp [replaceFirstSystemMsg, ha]
    exact ih (fun m' hm' => h1 m' (by simp [hm']))

/-- C4 (amended): when a system prompt is configured, each handler
prepends it ahead of client system content, but client content survives
only in the well-shaped cases: the common transformer inserts a new
leading system message when none exists and otherwise prepends the
prompt to the first system message through `contentIfString` (a
non-string content is dropped and the content becomes the prompt
alone); the messages handler prepends a new system block only when the
client `system` field is an array and otherwise replaces the field by
an array holding just the prompt block; the responses handler prepends
the prompt to a nonempty `instructions` string and otherwise sets
`instructions` to the prompt alone. -/
theorem systemPrompt_injection_amended
    (cfg : Config) (sp : String)
    (hsp : getSystemPrompt cfg = some sp) (hne : sp ≠ "")
    (reqC : CommonRequest) (reqM : MessagesRequest) (reqR : ResponsesRequest) :
    (∀ l, reqC.messages = some l → (∀ m ∈ l, m.role ≠ "system") →
      (injectSystemPromptCommon cfg reqC).messages =
        some (ChatMsg.mk "system" (JVal.str sp) :: l)) ∧
    (reqC.messages = none →
      (injectSystemPromptCommon cfg reqC).messages =
        some [ChatMsg.mk "system" (JVal.str sp)]) ∧
    (∀ l1 m l2, reqC.messages = some (l1 ++ m :: l2) →
      (∀ m' ∈ l1, m'.role ≠ "system") → m.role = "system" →
      (injectSystemPromptCommon cfg reqC).messages =
        some (l1 ++ ChatMsg.mk "system" (JVal.str (sp ++ contentIfString m.content)) :: l2)) ∧
    (∀ l, reqM.system = some (JVal.arr l) →
      (injectSystemPromptMessages cfg reqM).system =
        some (JVal.arr (mkTextBlock sp :: l))) ∧
    ((∀ l, reqM.system ≠ some (JVal.arr l)) →
      (injectSystemPromptMessages cfg reqM).system =
        some (JVal.arr [mkTextBlock sp])) ∧
    (∀ s, reqR.instructions = some s → s ≠ "" →
      (injectSystemPromptResponses cfg reqR).instructions = some (sp ++ s)) ∧
    ((reqR.instructions = none ∨ reqR.instructions = some "") →
      (injectSystemPromptResponses cfg reqR).instructions = some sp) := by
  have htr : jsTruthyS (getSystemPrompt cfg) = true := by
    simp [hsp, jsTruthyS, hne]
  refine ⟨?_, ?_, ?_, ?_, ?_, ?_, ?_⟩
  · intro l hl hnone
    have hany : l.any (fun m => m.role = "system") = false := by
      rw [List.any_eq_false]
      intro m hm
      simpa using hnone m hm
    simp [injectSystemPromptCommon, htr, hl, hany, hsp, jsTruthyS, hne]
  · intro hl
    simp [injectSystemPromptCommon, htr, hl, hsp, jsTruthyS, hne]
  · intro l1 m l2 hl h1 hm
    have hany : (l1 ++ m :: l2).any (fun x => x.role = "system") = true := by
      rw [List.any_eq_true]
      exact ⟨m, by simp, by simp [hm]⟩
    simp only [injectSystemPromptCommon, htr, hl, hany, if_true, hsp]
    simp [replaceFirstSystemMsg_eq sp l1 m l2 h1 hm, jsTruthyS, hne]
  · intro l hl
    simp [injectSystemPromptMessages, htr, hl, hsp, jsTruthyS, hne]
  · intro hl
    rcases hsys : reqM.system with _ | v
    · simp [injectSystemPromptMessages, hsp, jsTruthyS, hne, hsys]
    · cases v with
      | arr l => exact absurd hsys (hl l)
      | null => simp [injectSystemPromptMessages, hsp, jsTruthyS, hne, hsys]
      | bool b => simp [injectSystemPromptMessages, hsp, jsTruthyS, hne, hsys]
      | num n => simp [injectSystemPromptMessages, hsp, jsTruthyS, hne, hsys]
      | str s2 => simp [injectSystemPromptMessages, hsp, jsTruthyS, hne, hsys]
      | obj fs => simp [injectSystemPromptMessages, hsp, jsTruthyS, hne, hsys]
  · intro s hs hne2
    simp [injectSystemPromptResponses, htr, hs, jsTruthyS, hne2, hsp, hne]
  · intro hs
    rcases hs with hs | hs <;>
      simp [injectSystemPromptResponses, htr, hs, jsTruthyS, hsp, hne]

theorem systemPrompt_injection_amended_witness :
    getSystemPrompt sampleCfg = some "PROMPT " ∧
    (injectSystemPromptCommon sampleCfg (sampleCommonReq "m-off")).messages =
      some (ChatMsg.mk "system" (JVal.str "PROMPT ") ::
        [ChatMsg.mk "user" (JVal.str "hi")]) ∧
    (injectSystemPromptMessages sampleCfg sampleMessagesReq).system =
      some (JVal.arr [mkTextBlock "PROMPT ", mkTextBlock "client block"]) ∧
    (injectSystemPromptResponses sampleCfg sampleResponsesReq).instructions =
      some ("PROMPT " ++ "client instructions") :=
  ⟨by decide,
    (systemPrompt_injection_amended sampleCfg "PROMPT " (by decide) (by decide)
      (sampleCommonReq "m-off") sampleMessagesReq sampleResponsesReq).1
      [ChatMsg.mk "user" (JVal.str "hi")] (by decide) (by decide),
    (systemPrompt_injection_amended sampleCfg "PROMPT " (by decide) (by decide)
      (sampleCommonReq "m-off") sampleMessagesReq sampleResponsesReq).2.2.2.1
      [mkTextBlock "client block"] (by decide),
    (systemPrompt_injection_amended sampleCfg "PROMPT " (by decide) (by decide)
      (sampleCommonReq "m-off") sampleMessagesReq sampleResponsesReq).2.2.2.2.2.1
      "client instructions" (by decide) (by decide)⟩

/-- A `/v1/messages` request whose `system` field is the plain string
Anthropic also accepts, rather than an array of blocks. -/
def cexMessagesReq : MessagesRequest where
  model := some "m-auto"
  system := some (JVal.str "KEEP ME")
  thinking := none
  stream := none
  extra := []

/-- A chat request whose first system message has structured
(non-string) content. -/
def cexCommonReq : CommonRequest where
  model := some "m-off"
  messages := some [ChatMsg.mk "system" (JVal.arr [JVal.str "KEEP ME"])]
  reasoning_effort := none
  stream := none
  extra := []

/-- C4 counterexample: with the system prompt configured, a client
`system` string (messages route) and a client system message with
non-string content (common family) are not preserved after the
prompt: the injected output no longer mentions the client text
anywhere, refuting the claim that all client-supplied system content
is preserved after the prompt. -/
theorem systemPrompt_injection_cex :
    jvalMentionsStr "KEEP ME" (JVal.str "KEEP ME") = true ∧
    jvalMentionsStr "KEEP ME" (JVal.arr [JVal.str "KEEP ME"]) = true ∧
    (injectSystemPromptMessages sampleCfg cexMessagesReq).system =
      some (JVal.arr [mkTextBlock "PROMPT "]) ∧
    jvalMentionsStr "KEEP ME" (JVal.arr [mkTextBlock "PROMPT "]) = false ∧
    (injectSystemPromptCommon sampleCfg cexCommonReq).messages =
      some [ChatMsg.mk "system" (JVal.str "PROMPT ")] ∧
    jvalMentionsStr "KEEP ME" (JVal.str "PROMPT ") = false := by
  decide

/-! ## Claims about routing and upstream error relay -/

/-- C5 (amended): when the requested model id resolves (directly or via
the redirect table) to an id with no configured model, every route
rejects with a 404 whose error text names the resolved id, before the
outbound fetch is reached (the result is a `reject`, which carries no
outbound call). The text names the post-redirect id, not necessarily
the id the client requested. -/
theorem modelNotFound_no_upstream
    (cfg : Config) (getApiKey : Option String → Option String) (h : ReqHeaders)
    (reqC : CommonRequest) (reqR : ResponsesRequest) (reqM : MessagesRequest)
    (mid : String)
    (hC : getRedirectedModelId cfg reqC.model = some mid)
    (hR : getRedirectedModelId cfg reqR.model = some mid)
    (hM : getRedirectedModelId cfg reqM.model = some mid)
    (hnf : getModelById cfg mid = none) :
    handleChatCompletionsRoute cfg getApiKey h reqC =
      ChatRoute.reject 404 (mkErrSimple ("Model " ++ mid ++ " not found")) ∧
    handleDirectResponsesRoute cfg getApiKey h reqR =
      DirectRoute.reject 404 (mkErrSimple ("Model " ++ mid ++ " not found")) ∧
    handleDirectMessagesRoute cfg getApiKey h reqM =
      DirectRoute.reject 404 (mkErrSimple ("Model " ++ mid ++ " not found")) ∧
    handleCountTokensRoute cfg getApiKey h reqM =
      DirectRoute.reject 404 (mkErrSimple ("Model " ++ mid ++ " not found")) := by
  refine ⟨?_, ?_, ?_, ?_⟩ <;>
    simp [handleChatCompletionsRoute, handleDirectResponsesRoute,
      handleDirectMessagesRoute, handleCountTokensRoute, hC, hR, hM, hnf]

/-- A configuration whose redirect table sends `alias-model` to the
unconfigured id `ghost-model`. -/
def cexRedirectCfg : Config where
  models := [⟨"real-model", "openai", "prov"⟩]
  redirects := [("alias-model", "ghost-model")]
  reasoning := []
  endpoints := [("openai", "https://upstream.example/v1/responses")]
  systemPrompt := none

def cexAliasReq : CommonRequest where
  model := some "alias-model"
  messages := none
  reasoning_effort := none
  stream := none
  extra := []

theorem modelNotFound_no_upstream_witness :
    getRedirectedModelId cexRedirectCfg cexAliasReq.model = some "ghost-model" ∧
    getModelById cexRedirectCfg "ghost-model" = none ∧
    handleChatCompletionsRoute cexRedirectCfg (fun a => a) ⟨none, none⟩ cexAliasReq =
      ChatRoute.reject 404 (mkErrSimple ("Model " ++ "ghost-model" ++ " not found")) :=
  ⟨by decide, by decide,
    (modelNotFound_no_upstream cexRedirectCfg (fun a => a) ⟨none, none⟩ cexAliasReq
      { model := cexAliasReq.model, instructions := none, reasoning := none,
        stream := none, extra := [] }
      { model := cexAliasReq.model, system := none, thinking := none,
        stream := none, extra := [] }
      "ghost-model" (by decide) (by decide) (by decide) (by decide)).1⟩

/-- C5 counterexample: a request for `alias-model`, which redirects to
the unconfigured `ghost-model`, is rejected with an error naming
`ghost-model`; the error body is not the one naming the requested id
`alias-model`, refuting the claim that the 404 identifies the requested
model id. -/
theorem modelNotFound_requested_id_cex :
    handleChatCompletionsRoute cexRedirectCfg (fun a => a) ⟨none, none⟩ cexAliasReq =
      ChatRoute.reject 404 (mkErrSimple "Model ghost-model not found") ∧
    mkErrSimple "Model ghost-model not found" ≠
      mkErrSimple "Model alias-model not found" := by
  decide

/-- C6 (amended): for every non-2xx upstream response on any of the
four routes, the upstream status code is relayed to the client
verbatim, and the upstream body text is embedded verbatim as the
`details` field of the JSON wrapper with the `Endpoint returned`
error text; the body is therefore relayed inside a wrapper, not as the
raw upstream bytes. -/
theorem upstreamError_relay
    (mt : String) (sf : Option JVal) (now : Nat) (isStreaming : Bool)
    (u : UpstreamResp) (hbad : respOk u = false) :
    handleChatCompletionsRespond mt sf now u =
      ⟨u.status, ClientBody.json (mkErrDetails u.status u.text)⟩ ∧
    directForwardRespond isStreaming u =
      ⟨u.status, ClientBody.json (mkErrDetails u.status u.text)⟩ ∧
    countTokensRespond u =
      ⟨u.status, ClientBody.json (mkErrDetails u.status u.text)⟩ ∧
    jGet (mkErrDetails u.status u.text) "details" = some (JVal.str u.text) := by
  refine ⟨?_, ?_, ?_, ?_⟩ <;>
    simp [handleChatCompletionsRespond, directForwardRespond, countTokensRespond,
      mkErrDetails, jGet, List.lookup, hbad]

theorem upstreamError_relay_witness :
    respOk ⟨502, "upstream exploded", JVal.null⟩ = false ∧
    directForwardRespond false ⟨502, "upstream exploded", JVal.null⟩ =
      ⟨502, ClientBody.json (mkErrDetails 502 "upstream exploded")⟩ :=
  ⟨by decide,
    (upstreamError_relay "common" none 0 false
      ⟨502, "upstream exploded", JVal.null⟩ (by decide)).2.1⟩

/-- C6 counterexample: for the non-2xx upstream response with status
502 and body text `BOOM`, the client receives the JSON wrapper, whose
body is neither the raw upstream bytes nor the upstream body as a bare
JSON string, refuting the claim that the upstream body is relayed
verbatim (the status, however, is relayed verbatim). -/
theorem upstreamError_verbatim_cex :
    directForwardRespond false ⟨502, "BOOM", JVal.null⟩ =
      ⟨502, ClientBody.json (mkErrDetails 502 "BOOM")⟩ ∧
    (directForwardRespond false ⟨502, "BOOM", JVal.null⟩).body ≠
      ClientBody.raw "BOOM" ∧
    (directForwardRespond false ⟨502, "BOOM", JVal.null⟩).body ≠
      ClientBody.json (JVal.str "BOOM") := by
  decide

/-! ## Claims about adaptation fallback, stream selection and credentials -/

/-- C8: on `/v1/chat/completions` with an openai-type model and a
non-streaming 2xx upstream response, when the adapter throws (the
upstream body does not parse into the expected shape), the original
untranslated upstream body is returned to the client with status 200
instead of the request failing. -/
theorem adapterThrow_fallback (now : Nat) (sf : Option JVal) (u : UpstreamResp)
    (hok : respOk u = true) (hns : sf ≠ some (JVal.bool true))
    (hthrow : tryConvertResponse now u.json = none) :
    handleChatCompletionsRespond "openai" sf now u =
      ⟨200, ClientBody.json u.json⟩ := by
  simp [handleChatCompletionsRespond, hok, hns, hthrow]

theorem adapterThrow_fallback_witness :
    respOk ⟨200, "7", JVal.num 7⟩ = true ∧
    tryConvertResponse 0 (JVal.num 7) = none ∧
    handleChatCompletionsRespond "openai" none 0 ⟨200, "7", JVal.num 7⟩ =
      ⟨200, ClientBody.json (JVal.num 7)⟩ :=
  ⟨by decide, by decide,
    adapterThrow_fallback 0 none ⟨200, "7", JVal.num 7⟩ (by decide)
      (by decide) (by decide)⟩

/-- C9 (amended): given a 2xx upstream response, on the three
forwarding routes the streaming path is taken exactly when the `stream`
field consulted by the handler is strictly the boolean `true` (any
other value selects the JSON path), and the common transformer passes
the client `stream` field through unchanged so the same
characterisation holds for the client-supplied field; the count_tokens
route never takes the streaming path. -/
theorem streaming_selection
    (cfg : Config) (mt : String) (sf : Option JVal) (now : Nat)
    (u : UpstreamResp) (req : CommonRequest)
    (hok : respOk u = true) :
    ((handleChatCompletionsRespond mt sf now u).body = ClientBody.streamed ↔
      sf = some (JVal.bool true)) ∧
    (∀ b : Bool, (directForwardRespond b u).body = ClientBody.streamed ↔ b = true) ∧
    (countTokensRespond u).body ≠ ClientBody.streamed ∧
    (transformToCommon cfg req).stream = req.stream := by
  have hstream : (transformToCommon cfg req).stream = req.stream := by
    have hfr := (injectSystemPromptCommon_frame cfg req).2.2.1
    unfold transformToCommon
    dsimp only
    split
    · exact hfr
    · split <;> simp [hfr]
  refine ⟨?_, ?_, ?_, hstream⟩
  · by_cases hsf : sf = some (JVal.bool true)
    · simp [handleChatCompletionsRespond, hok, hsf]
    · constructor
      · intro hbody
        by_cases hmt : mt = "openai"
        · rcases hconv : tryConvertResponse now u.json with _ | c <;>
            simp [handleChatCompletionsRespond, hok, hsf, hmt, hconv] at hbody
        · simp [handleChatCompletionsRespond, hok, hsf, hmt] at hbody
      · intro hsf2
        exact absurd hsf2 hsf
  · intro b
    cases b <;> simp [directForwardRespond, hok]
  · simp [countTokensRespond, hok]

theorem streaming_selection_witness :
    respOk ⟨200, "", JVal.obj []⟩ = true ∧
    ((handleChatCompletionsRespond "common" (some (JVal.str "true")) 0
      ⟨200, "", JVal.obj []⟩).body = ClientBody.streamed ↔
      (some (JVal.str "true") : Option JVal) = some (JVal.bool true)) ∧
    (countTokensRespond ⟨200, "", JVal.obj []⟩).body ≠ ClientBody.streamed :=
  ⟨by decide,
    (streaming_selection sampleCfg "common" (some (JVal.str "true")) 0
      ⟨200, "", JVal.obj []⟩ cexCommonReq (by decide)).1,
    (streaming_selection sampleCfg "common" (some (JVal.str "true")) 0
      ⟨200, "", JVal.obj []⟩ cexCommonReq (by decide)).2.2.1⟩

/-- The anthropic-type configuration and a count_tokens request that
asks for streaming, used to exercise the count_tokens path. -/
def anthroCfg : Config where
  models := [⟨"m-any", "anthropic", "prov"⟩]
  redirects := []
  reasoning := []
  endpoints := [("anthropic", "https://upstream.example/v1/messages")]
  systemPrompt := none

def cexCountReq : MessagesRequest where
  model := some "m-any"
  system := none
  thinking := none
  stream := some (JVal.bool true)
  extra := []

/-- C9 counterexample: a count_tokens request whose body carries
`stream: true` still gets the non-streaming JSON path (the handler has
no streaming branch), refuting the claim that on all four POST routes
the streaming path is taken whenever `stream` is strictly `true`. -/
theorem streaming_counttokens_cex :
    cexCountReq.stream = some (JVal.bool true) ∧
    handleCountTokens anthroCfg (fun a => a) ⟨some "Bearer k", none⟩ cexCountReq
      ⟨200, "", JVal.obj [("input_tokens", JVal.num 3)]⟩ =
      ⟨200, ClientBody.json (JVal.obj [("input_tokens", JVal.num 3)])⟩ ∧
    (handleCountTokens anthroCfg (fun a => a) ⟨some "Bearer k", none⟩ cexCountReq
      ⟨200, "", JVal.obj [("input_tokens", JVal.num 3)]⟩).body ≠
      ClientBody.streamed := by
  decide

/-- C10: when the client supplies no authorization header but a
(nonempty) x-api-key header, the direct-forwarding routes pass
`Bearer <x-api-key>` as the client credential to resolution, while the
chat-completions route consults only the authorization header: its
credential argument and its whole routing result are independent of
x-api-key, and the direct routes consult the resolver only at
`clientAuthDirect`. -/
theorem clientAuth_resolution
    (h : ReqHeaders) (k : String)
    (hauth : h.authorization = none) (hk : h.xApiKey = some k) (hne : k ≠ "") :
    clientAuthDirect h = some ("Bearer " ++ k) ∧
    (∀ a xk xk2 : Option String,
      clientAuthChat ⟨a, xk⟩ = clientAuthChat ⟨a, xk2⟩) ∧
    (∀ (cfg : Config) (g : Option String → Option String) (req : CommonRequest)
      (a xk xk2 : Option String),
      handleChatCompletionsRoute cfg g ⟨a, xk⟩ req =
        handleChatCompletionsRoute cfg g ⟨a, xk2⟩ req) ∧
    (∀ (cfg : Config) (g g2 : Option String → Option String)
      (reqR : ResponsesRequest) (reqM : MessagesRequest),
      g (clientAuthDirect h) = g2 (clientAuthDirect h) →
      handleDirectResponsesRoute cfg g h reqR = handleDirectResponsesRoute cfg g2 h reqR ∧
      handleDirectMessagesRoute cfg g h reqM = handleDirectMessagesRoute cfg g2 h reqM ∧
      handleCountTokensRoute cfg g h reqM = handleCountTokensRoute cfg g2 h reqM) := by
  refine ⟨?_, fun a xk xk2 => rfl, fun cfg g req a xk xk2 => rfl, ?_⟩
  · simp [clientAuthDirect, jsOrStr, jsTruthyS, hauth, hk, hne]
  · intro cfg g g2 reqR reqM hg
    exact ⟨by simp [handleDirectResponsesRoute, hg],
      by simp [handleDirectMessagesRoute, hg],
      by simp [handleCountTokensRoute, hg]⟩

theorem clientAuth_resolution_witness :
    clientAuthDirect ⟨none, some "sk-123"⟩ = some ("Bearer " ++ "sk-123") ∧
    clientAuthChat ⟨none, some "sk-123"⟩ = none :=
  ⟨(clientAuth_resolution ⟨none, some "sk-123"⟩ "sk-123" (by decide) (by decide)
    (by decide)).1, by decide⟩

/-! ## Evaluation of the adapter on well-formed encoded bodies -/

theorem jGet_encodeRespBody (r : RespBody) :
    jGet (encodeRespBody r) "id" = r.id.map JVal.str ∧
    jGet (encodeRespBody r) "created_at" = r.created_at.map JVal.num ∧
    jGet (encodeRespBody r) "model" = r.model.map JVal.str ∧
    jGet (encodeRespBody r) "status" = r.status.map JVal.str ∧
    jGet (encodeRespBody r) "output" =
      r.output.map (fun l => JVal.arr (l.map encodeOutputItem)) ∧
    jGet (encodeRespBody r) "usage" = r.usage.map encodeRespUsage := by
  obtain ⟨i, c, m, st, o, u⟩ := r
  cases i <;> cases c <;> cases m <;> cases st <;> cases o <;> cases u <;>
    simp [encodeRespBody, optField, jGet, List.lookup]

theorem jGet_encodeOutputItem_type (o : OutputItem) :
    jGet (encodeOutputItem o) "type" = some (JVal.str o.type) := by
  obtain ⟨t, ro, co⟩ := o
  cases ro <;> cases co <;> simp [encodeOutputItem, optField, jGet, List.lookup]

theorem jGet_encodeOutputItem_role (o : OutputItem) :
    jGet (encodeOutputItem o) "role" = o.role.map JVal.str := by
  obtain ⟨t, ro, co⟩ := o
  cases ro <;> cases co <;> simp [encodeOutputItem, optField, jGet, List.lookup]

theorem jGet_encodeOutputItem_content (o : OutputItem) :
    jGet (encodeOutputItem o) "content" =
      o.content.map (fun l => JVal.arr (l.map encodeContentPart)) := by
  obtain ⟨t, ro, co⟩ := o
  cases ro <;> cases co <;> simp [encodeOutputItem, optField, jGet, List.lookup]

theorem jGet_encodeContentPart_type (c : ContentPart) :
    jGet (encodeContentPart c) "type" = some (JVal.str c.type) := by
  obtain ⟨t, tx⟩ := c
  cases tx <;> simp [encodeContentPart, optField, jGet, List.lookup]

theorem jGet_encodeContentPart_text (c : ContentPart) :
    jGet (encodeContentPart c) "text" = c.text.map JVal.str := by
  obtain ⟨t, tx⟩ := c
  cases tx <;> simp [encodeContentPart, optField, jGet, List.lookup]

theorem jGet_encodeRespUsage (u : RespUsage) :
    jGet (encodeRespUsage u) "input_tokens" = u.input_tokens.map JVal.num ∧
    jGet (encodeRespUsage u) "output_tokens" = u.output_tokens.map JVal.num ∧
    jGet (encodeRespUsage u) "total_tokens" = u.total_tokens.map JVal.num := by
  obtain ⟨a, b, c⟩ := u
  cases a <;> cases b <;> cases c <;>
    simp [encodeRespUsage, optField, jGet, List.lookup]

theorem encodeOutputItem_ne_null (o : OutputItem) :
    encodeOutputItem o ≠ JVal.null := by
  simp [encodeOutputItem]

theorem encodeContentPart_ne_null (c : ContentPart) :
    encodeContentPart c ≠ JVal.null := by
  simp [encodeContentPart]

theorem findMessageItem_encode (l : List OutputItem) :
    findMessageItem (l.map encodeOutputItem) =
      some ((l.find? (fun o => o.type = "message")).map encodeOutputItem) := by
  induction l with
  | nil => simp [findMessageItem]
  | cons a t ih =>
    by_cases hty : a.type = "message"
    · simp [findMessageItem, encodeOutputItem_ne_null,
        jGet_encodeOutputItem_type, hty, List.find?_cons_of_pos]
    · rw [List.map_cons, List.find?_cons_of_neg _ (by simpa using hty)]
      simp [findMessageItem, encodeOutputItem_ne_null,
        jGet_encodeOutputItem_type, hty, ih]

theorem filterTextBlocks_encode (l : List ContentPart) :
    filterTextBlocks (l.map encodeContentPart) =
      some ((l.filter (fun c => c.type = "output_text")).map encodeContentPart) := by
  induction l with
  | nil => simp [filterTextBlocks]
  | cons a t ih =>
    by_cases hty : a.type = "output_text"
    · simp [filterTextBlocks, encodeContentPart_ne_null,
        jGet_encodeContentPart_type, hty, ih, List.filter_cons]
    · simp [filterTextBlocks, encodeContentPart_ne_null,
        jGet_encodeContentPart_type, hty, ih, List.filter_cons]

theorem textOfBlock_encode (c : ContentPart) :
    textOfBlock (encodeContentPart c) = c.text.getD "" := by
  rcases htx : c.text with _ | s <;>
    simp [textOfBlock, jGet_encodeContentPart_text, htx, jsJoinElemStr]

theorem map_textOfBlock_encode (l : List ContentPart) :
    List.map (textOfBlock ∘ encodeContentPart) l =
      List.map (fun c => c.text.getD "") l := by
  induction l with
  | nil => rfl
  | cons a t ih => simp [textOfBlock_encode, ih]

theorem jsOrJ_map_str (x : Option String) (d : String) :
    jsOrJ (x.map JVal.str) (JVal.str d) = orDefaultStr x d := by
  cases x with
  | none => simp [jsOrJ, jsTruthyO, orDefaultStr]
  | some s =>
    by_cases h : s = "" <;>
      simp [jsOrJ, jsTruthyO, jsTruthy, orDefaultStr, h]

theorem jsOrJ_map_num (x : Option Int) (d : Int) :
    jsOrJ (x.map JVal.num) (JVal.num d) = orDefaultNum x d := by
  cases x with
  | none => simp [jsOrJ, jsTruthyO, orDefaultNum]
  | some n =>
    by_cases h : n = 0 <;>
      simp [jsOrJ, jsTruthyO, jsTruthy, orDefaultNum, h]

theorem usage_step (ru : Option RespUsage) :
    jsNullish (jGetO (ru.map encodeRespUsage) "input_tokens") (JVal.num 0) =
      JVal.num ((ru.bind (fun u => u.input_tokens)).getD 0) ∧
    jsNullish (jGetO (ru.map encodeRespUsage) "output_tokens") (JVal.num 0) =
      JVal.num ((ru.bind (fun u => u.output_tokens)).getD 0) ∧
    jsNullish (jGetO (ru.map encodeRespUsage) "total_tokens") (JVal.num 0) =
      JVal.num ((ru.bind (fun u => u.total_tokens)).getD 0) := by
  cases ru with
  | none => simp [jGetO, jsNullish]
  | some u =>
    obtain ⟨a, b, c⟩ := u
    cases a <;> cases b <;> cases c <;>
      simp [encodeRespUsage, optField, jGetO, jGet, List.lookup, jsNullish]

theorem jsOrJ_none (d : JVal) : jsOrJ none d = d := by
  simp [jsOrJ, jsTruthyO]

theorem status_cond (rst : Option String) :
    (Option.map JVal.str rst = some (JVal.str "completed")) = (rst = some "completed") := by
  cases rst <;> simp

/-- C7: on every well-formed non-streaming upstream body, the adapter
produces exactly the completion the claim describes: the text-typed
parts of the first message-typed output item concatenated in order as
the single choice content, finish reason `stop` exactly when the
upstream status is `completed` and `unknown` otherwise, the synthetic
id derived deterministically from a present (nonempty) upstream id and
time-based otherwise, and the usage counters copied with each missing
counter defaulted to zero. -/
theorem convertResponse_wellformed (now : Nat) (r : RespBody) :
    tryConvertResponse now (encodeRespBody r) = some (expectedChatCompletion now r) ∧
    (∀ n1 n2 : Nat, ∀ s : String, s ≠ "" →
      syntheticId (some s) n1 = syntheticId (some s) n2) ∧
    (∀ n : Nat, syntheticId none n = "chatcmpl-" ++ toString n) ∧
    (expectedChatCompletion now r).finish_reason =
      (if r.status = some "completed" then "stop" else "unknown") ∧
    (expectedChatCompletion now r).content = String.join (messageTexts r) ∧
    (expectedChatCompletion now r).prompt_tokens =
      JVal.num ((r.usage.bind (fun u => u.input_tokens)).getD 0) := by
  refine ⟨?_, ?_, fun n => rfl, rfl, rfl, rfl⟩
  swap
  · intro n1 n2 s hs
    simp [syntheticId, hs]
  obtain ⟨hid, hcr, hmo, hst, hout, hus⟩ := jGet_encodeRespBody r
  obtain ⟨hu1, hu2, hu3⟩ := usage_step r.usage
  have hobj : jsIsObjectLike (encodeRespBody r) = true := by
    simp [encodeRespBody, jsIsObjectLike]
  unfold tryConvertResponse
  simp only [hobj, Bool.not_true, Bool.false_eq_true, if_false, hid, hcr, hmo, hst,
    hout, hus, hu1, hu2, hu3, jsOrJ_map_str, jsOrJ_map_num, status_cond]
  rcases ho : r.output with _ | lo
  · rcases hi : r.id with _ | s
    · simp [expectedChatCompletion, syntheticId, orDefaultStr, orDefaultNum,
        firstMessageItem, messageTexts, jsOrJ_map_str, jsOrJ_map_num, jsOrJ_none,
        jGetO, jGet_encodeOutputItem_role, jGet_encodeOutputItem_content,
        textOfBlock_encode, map_textOfBlock_encode, findMessageItem_encode,
        filterTextBlocks_encode, findMessageItem, jsTruthy, status_cond, ho, hi]
    · by_cases hs : s = "" <;>
        simp [expectedChatCompletion, syntheticId, orDefaultStr, orDefaultNum,
          firstMessageItem, messageTexts, jsOrJ_map_str, jsOrJ_map_num, jsOrJ_none,
          jGetO, jGet_encodeOutputItem_role, jGet_encodeOutputItem_content,
          textOfBlock_encode, map_textOfBlock_encode, findMessageItem_encode,
          filterTextBlocks_encode, findMessageItem, jsTruthy, status_cond, ho, hi, hs]
  · rcases hfind : lo.find? (fun o => o.type = "message") with _ | m
    · rcases hi : r.id with _ | s
      · simp [expectedChatCompletion, syntheticId, orDefaultStr, orDefaultNum,
          firstMessageItem, messageTexts, jsOrJ_map_str, jsOrJ_map_num, jsOrJ_none,
          jGetO, jGet_encodeOutputItem_role, jGet_encodeOutputItem_content,
          textOfBlock_encode, map_textOfBlock_encode, findMessageItem_encode,
          filterTextBlocks_encode, findMessageItem, jsTruthy, status_cond, ho,
          hfind, hi]
      · by_cases hs : s = "" <;>
          simp [expectedChatCompletion, syntheticId, orDefaultStr, orDefaultNum,
            firstMessageItem, messageTexts, jsOrJ_map_str, jsOrJ_map_num, jsOrJ_none,
            jGetO, jGet_encodeOutputItem_role, jGet_encodeOutputItem_content,
            textOfBlock_encode, map_textOfBlock_encode, findMessageItem_encode,
            filterTextBlocks_encode, findMessageItem, jsTruthy, status_cond, ho,
            hfind, hi, hs]
    · rcases hc : m.content with _ | lc
      · rcases hi : r.id with _ | s
        · simp [expectedChatCompletion, syntheticId, orDefaultStr, orDefaultNum,
            firstMessageItem, messageTexts, jsOrJ_map_str, jsOrJ_map_num, jsOrJ_none,
            jGetO, jGet_encodeOutputItem_role, jGet_encodeOutputItem_content,
            textOfBlock_encode, map_textOfBlock_encode, findMessageItem_encode,
            filterTextBlocks_encode, findMessageItem, jsTruthy, status_cond, ho,
            hfind, hc, hi]
        · by_cases hs : s = "" <;>
            simp [expectedChatCompletion, syntheticId, orDefaultStr, orDefaultNum,
              firstMessageItem, messageTexts, jsOrJ_map_str, jsOrJ_map_num,
              jsOrJ_none, jGetO, jGet_encodeOutputItem_role,
              jGet_encodeOutputItem_content, textOfBlock_encode,
              map_textOfBlock_encode, findMessageItem_encode, filterTextBlocks_encode,
              findMessageItem, jsTruthy, status_cond, ho, hfind, hc, hi, hs]
      · rcases hi : r.id with _ | s
        · simp [expectedChatCompletion, syntheticId, orDefaultStr, orDefaultNum,
            firstMessageItem, messageTexts, jsOrJ_map_str, jsOrJ_map_num, jsOrJ_none,
            jGetO, jGet_encodeOutputItem_role, jGet_encodeOutputItem_content,
            textOfBlock_encode, map_textOfBlock_encode, findMessageItem_encode,
            filterTextBlocks_encode, findMessageItem, jsTruthy, status_cond, ho,
            hfind, hc, hi]
        · by_cases hs : s = "" <;>
            simp [expectedChatCompletion, syntheticId, orDefaultStr, orDefaultNum,
              firstMessageItem, messageTexts, jsOrJ_map_str, jsOrJ_map_num,
              jsOrJ_none, jGetO, jGet_encodeOutputItem_role,
              jGet_encodeOutputItem_content, textOfBlock_encode,
              map_textOfBlock_encode, findMessageItem_encode, filterTextBlocks_encode,
              findMessageItem, jsTruthy, status_cond, ho, hfind, hc, hi, hs]

/-- A representative well-formed upstream body exercising the first
message item, mixed content types, a `resp_`-marked id and partially
missing usage counters. -/
def sampleRespBody : RespBody where
  id := some "resp_abc123"
  created_at := some 111
  model := some "gpt-x"
  status := some "completed"
  output := some
    [⟨"reasoning", none, none⟩,
     ⟨"message", some "assistant",
       some [⟨"output_text", some "Hel"⟩, ⟨"annotation", some "skip"⟩,
         ⟨"output_text", some "lo"⟩]⟩]
  usage := some ⟨some 5, some 7, none⟩

theorem convertResponse_wellformed_witness :
    tryConvertResponse 1234 (encodeRespBody sampleRespBody) =
      some (expectedChatCompletion 1234 sampleRespBody) ∧
    syntheticId (some "resp_abc123") 1 = syntheticId (some "resp_abc123") 2 :=
  ⟨(convertResponse_wellformed 1234 sampleRespBody).1,
    (convertResponse_wellformed 1234 sampleRespBody).2.1 1 2 "resp_abc123"
      (by decide)⟩
